import Mathlib

/-!
Verification of the MatchIQ chat proxy (rohitbnair10/matchiqnew).

The repository holds two near-duplicate Vercel functions:
  * `src/chat.js`        — edge variant, RATE_LIMIT = 20, RATE_WINDOW = 3600 s,
                           responses built with `new Response(...)`;
  * `src/unnamed/part_000` — serverless variant, RATE_LIMIT = 100,
                           RATE_WINDOW = 3600000 ms, responses via `res.status(...)`.

We shallowly embed the edge variant (`src/chat.js`), which is the fuller of the
two (it returns `remaining`/`resetIn` and forwards a request-supplied model);
the rate-limit constants are kept as injectable configuration so both variants'
parameters are instances.  Times are JavaScript `Date.now()` millisecond
timestamps, modelled as `Int` (exact: the JS values are far below 2^53).
`Math.ceil(a / 1000)` on such integers is the exact mathematical ceiling, so it
is embedded as the integer ceiling of `a / 1000`.
-/

/-- Rate-limiter configuration: `RATE_LIMIT` (requests per window) and
`RATE_WINDOW` (window length in seconds), per the constants at the top of
`src/chat.js`. -/
structure RLConfig where
  limit : Nat
  window : Int
  deriving DecidableEq

/-- The edge variant's constants: 20 requests per 3600-second window. -/
def cfgEdge : RLConfig := ⟨20, 3600⟩

/-- The serverless variant's constants: 100 requests per hour. -/
def cfgServerless : RLConfig := ⟨100, 3600⟩

/-- One entry of `rateLimitMap`: `{ windowStart, count }`. -/
structure RateRecord where
  windowStart : Int
  count : Nat
  deriving DecidableEq

/-- The in-memory `rateLimitMap`, a total lookup from client keys. -/
def RateMap : Type := String → Option RateRecord

/-- The map at cold start: empty. -/
def rlEmpty : RateMap := fun _ => none

/-- `rateLimitMap.set(key, rec)`. -/
def rlSet (m : RateMap) (key : String) (rec : RateRecord) : RateMap :=
  fun k => if k = key then some rec else m k

/-- Result of `checkRateLimit`: `{ allowed, remaining, resetIn? }`. -/
structure RLResult where
  allowed : Bool
  remaining : Nat
  resetIn : Option Int
  deriving DecidableEq

/-- `Math.ceil(a / 1000)` for an exact integer `a` (JS floats are exact for the
magnitudes involved): the ceiling of `a / 1000`, via `⌈a/b⌉ = -⌊-a/b⌋` with
`Int` division (Euclidean, here floor since the divisor is positive). -/
def ceilSec (a : Int) : Int := -(-a / 1000)

/-- `checkRateLimit(key)` from `src/chat.js` lines 18–34, with the current time
and the map passed explicitly; returns the result together with the map after
the call (the JS function mutates `rateLimitMap` in place). -/
def checkRateLimit (cfg : RLConfig) (key : String) (now : Int) (m : RateMap) :
    RLResult × RateMap :=
  match m key with
  | none =>
      (⟨true, cfg.limit - 1, none⟩, rlSet m key ⟨now, 1⟩)
  | some record =>
      if now - record.windowStart > cfg.window * 1000 then
        (⟨true, cfg.limit - 1, none⟩, rlSet m key ⟨now, 1⟩)
      else if record.count ≥ cfg.limit then
        (⟨false, 0, some (ceilSec (record.windowStart + cfg.window * 1000 - now))⟩, m)
      else
        (⟨true, cfg.limit - (record.count + 1), none⟩,
          rlSet m key ⟨record.windowStart, record.count + 1⟩)

/-- Fold a list of `(key, now)` calls through `checkRateLimit`, keeping only the
evolving map: the reachable states of `rateLimitMap` from cold start are
`runCalls cfg calls rlEmpty`. -/
def runCalls (cfg : RLConfig) (calls : List (String × Int)) (m : RateMap) : RateMap :=
  calls.foldl (fun acc c => (checkRateLimit cfg c.1 c.2 acc).2) m

/-! ## The HTTP handler (`src/chat.js` `handler`) -/

/-- One `{role, content}` element of the `messages` array (spec data model). -/
structure ChatMsg where
  role : String
  content : String
  deriving DecidableEq

/-- The `messages` field of a parsed request body, distinguishing a missing
field from a present non-array value from an actual array —
`Array.isArray(body.messages)` accepts only the last. -/
inductive MsgField where
  | missing
  | notArray
  | arr (msgs : List ChatMsg)
  deriving DecidableEq

/-- A parsed request body.  `model`, `max_tokens`, `temperature` are `none`
when absent (or `null`, which `||`/`??` treat like absent).  `temperature` is a
rational: no arithmetic is performed on it, it is only passed through or
defaulted, so exact rationals embed the JS numbers faithfully. -/
structure ChatBody where
  messages : MsgField
  model : Option String
  max_tokens : Option Int
  temperature : Option ℚ
  deriving DecidableEq

/-- An inbound request: method, the two client-identifying headers, and the
result of `await req.json()` (`none` when parsing throws). -/
structure Req where
  method : String
  xff : Option String
  xrealip : Option String
  body : Option ChatBody
  deriving DecidableEq

/-- `getRateLimitKey(req)` from `src/chat.js` lines 12–16:
`x-forwarded-for` first hop, trimmed, else `x-real-ip`, else `"unknown"`;
`||` makes an empty-string candidate fall through. -/
def getRateLimitKey (req : Req) : String :=
  let hop := match req.xff with
    | some s => ((s.splitOn ",").headD "").trim
    | none => ""
  if hop ≠ "" then hop
  else match req.xrealip with
    | some r => if r ≠ "" then r else "unknown"
    | none => "unknown"

/-- The JSON body of the single upstream `fetch` to the chat-completions
endpoint: `{model, messages, max_tokens, temperature}`. -/
structure UpstreamBody where
  model : String
  messages : List ChatMsg
  max_tokens : Int
  temperature : ℚ
  deriving DecidableEq

/-- `src/chat.js` lines 117–122: the upstream request body.
`body.model || "gpt-4o-mini"` and `body.max_tokens || 1500` are falsy-coalescing
(`""`/`0` fall back to the default); `body.temperature ?? 0.85` is
nullish-coalescing (a present `0` is kept). -/
def buildUpstreamBody (msgs : List ChatMsg) (b : ChatBody) : UpstreamBody :=
  { model := match b.model with
      | some s => if s = "" then "gpt-4o-mini" else s
      | none => "gpt-4o-mini"
    messages := msgs
    max_tokens := match b.max_tokens with
      | some t => if t = 0 then 1500 else t
      | none => 1500
    temperature := match b.temperature with
      | some t => t
      | none => 85 / 100 }

/-- `message` object of the first upstream choice; `content` may be absent. -/
structure UpMsg where
  content : Option String
  deriving DecidableEq

/-- One element of the upstream reply's `choices` array; `message` may be
absent. -/
structure UpChoice where
  message : Option UpMsg
  deriving DecidableEq

/-- The result of `await openaiRes.json()`: either the parse throws, or it
yields an object from which the code reads `err.error?.message` (modelled as
`errMsg`, `none` when the chain is absent) and `data.choices` (`none` when the
field is absent). -/
inductive UpBody where
  | unparseable
  | parsed (errMsg : Option String) (choices : Option (List UpChoice))
  deriving DecidableEq

/-- The outcome of the upstream `fetch`: the promise rejects with some
transport error `e`, or a reply arrives with an HTTP status and a body. -/
inductive UpstreamOutcome where
  | transportError (e : String)
  | reply (status : Nat) (body : UpBody)
  deriving DecidableEq

/-- `Response.ok`: status in the inclusive range 200–299. -/
def resOk (status : Nat) : Bool := 200 ≤ status && status < 300

/-- A response body as serialized by the handler: empty (204), an error object
`{error, resetIn?}`, or a success object `{content?, remaining}` (`content` is
dropped by `JSON.stringify` when the extracted value is `undefined`). -/
inductive RespBody where
  | empty
  | errBody (msg : String) (resetIn : Option Int)
  | okBody (content : Option String) (remaining : Nat)
  deriving DecidableEq

/-- An HTTP response: status code and JSON body. -/
structure HResponse where
  status : Nat
  body : RespBody
  deriving DecidableEq

/-- What one handler invocation produces: the response, the rate-limit map
afterwards, and the body of the upstream call if one was issued. -/
structure HandlerResult where
  resp : HResponse
  newMap : RateMap
  upstreamCall : Option UpstreamBody

/-- `handler(req)` from `src/chat.js` lines 36–153, with the ambient state made
explicit: the rate-limit configuration, `process.env.OPENAI_API_KEY`,
the outcome the single upstream `fetch` would have, `Date.now()`, and the
current `rateLimitMap`.  Branches in source order: OPTIONS preflight (204),
non-POST (405), rate limit (429), JSON parse failure (400), `messages` not an
array (400), missing key (500), then the upstream call — transport rejection
is caught as 502, a non-ok reply passes its status through with
`err.error?.message || "OpenAI error: <status>"`, and an ok reply yields 200
with `data.choices[0].message.content` (a throw while extracting it lands in
the same catch block: 502). -/
def handler (cfg : RLConfig) (apiKey : Option String) (up : UpstreamOutcome)
    (now : Int) (m : RateMap) (req : Req) : HandlerResult :=
  if req.method = "OPTIONS" then
    ⟨⟨204, .empty⟩, m, none⟩
  else if req.method ≠ "POST" then
    ⟨⟨405, .errBody "Method not allowed" none⟩, m, none⟩
  else
    let key := getRateLimitKey req
    let rc := (checkRateLimit cfg key now m).1
    let m' := (checkRateLimit cfg key now m).2
    if rc.allowed = false then
      ⟨⟨429, .errBody
          ("Rate limited. Try again in " ++ toString (rc.resetIn.getD 0) ++ "s.")
          rc.resetIn⟩, m', none⟩
    else
      match req.body with
      | none => ⟨⟨400, .errBody "Invalid JSON" none⟩, m', none⟩
      | some b =>
        match b.messages with
        | .arr msgs =>
          match apiKey with
          | none => ⟨⟨500, .errBody "Server misconfigured" none⟩, m', none⟩
          | some _ =>
            let ub := buildUpstreamBody msgs b
            match up with
            | .transportError _ =>
                ⟨⟨502, .errBody "Failed to reach AI service" none⟩, m', some ub⟩
            | .reply status upb =>
              if resOk status then
                match upb with
                | .unparseable =>
                    ⟨⟨502, .errBody "Failed to reach AI service" none⟩, m', some ub⟩
                | .parsed _ choices =>
                  match choices with
                  | none =>
                      ⟨⟨502, .errBody "Failed to reach AI service" none⟩, m', some ub⟩
                  | some [] =>
                      ⟨⟨502, .errBody "Failed to reach AI service" none⟩, m', some ub⟩
                  | some (c :: _) =>
                    match c.message with
                    | none =>
                        ⟨⟨502, .errBody "Failed to reach AI service" none⟩, m', some ub⟩
                    | some msg =>
                        ⟨⟨200, .okBody msg.content rc.remaining⟩, m', some ub⟩
              else
                let extracted := match upb with
                  | .unparseable => none
                  | .parsed e _ => e
                let emsg := match extracted with
                  | some s => if s = "" then "OpenAI error: " ++ toString status else s
                  | none => "OpenAI error: " ++ toString status
                ⟨⟨status, .errBody emsg none⟩, m', some ub⟩
        | _ => ⟨⟨400, .errBody "messages array required" none⟩, m', none⟩

/-! ## Concrete inputs used in counterexamples and witnesses -/

/-- A map holding one full record: key `"9.9.9.9"` at window start 0 with
count 20 (the edge variant's limit). -/
def mFull : RateMap := rlSet rlEmpty "9.9.9.9" ⟨0, 20⟩

/-- A well-formed chat body: `messages` is an array, the optional fields are
absent. -/
def bPlain : ChatBody := ⟨.arr [⟨"user", "hi"⟩], none, none, none⟩

/-- A POST request carrying `bPlain` from client `9.9.9.9`. -/
def reqPlain : Req := ⟨"POST", none, some "9.9.9.9", some bPlain⟩

/-- A chat body whose optional fields are all present but falsy:
`model = ""`, `max_tokens = 0`, `temperature = 0`. -/
def bFalsy : ChatBody := ⟨.arr [⟨"user", "hi"⟩], some "", some 0, some 0⟩

/-- A POST request carrying `bFalsy`. -/
def reqFalsy : Req := ⟨"POST", none, some "9.9.9.9", some bFalsy⟩

/-- A POST request whose parsed body has `messages` present but not an
array. -/
def reqBadMsgs : Req := ⟨"POST", none, some "9.9.9.9", some ⟨.notArray, none, none, none⟩⟩

/-- A chat body with all optional fields present and non-falsy. -/
def bRich : ChatBody := ⟨.arr [⟨"user", "hi"⟩], some "gpt-4o", some 5, some (1/2)⟩

/-- A POST request carrying `bRich`. -/
def reqRich : Req := ⟨"POST", none, some "9.9.9.9", some bRich⟩

/-- The per-key count invariant of the rate-limit map. -/
def RLInv (cfg : RLConfig) (m : RateMap) : Prop :=
  ∀ k r, m k = some r → 1 ≤ r.count ∧ r.count ≤ cfg.limit

/-- The extraction `err.error?.message` the non-ok branch reads from the
upstream body (`none` when the body is unparseable or the chain is absent). -/
def upErrMsg : UpBody → Option String
  | .unparseable => none
  | .parsed e _ => e

/-- The fixed status codes the handler can emit on its own: success, preflight,
and the fixed error codes (400 validation/parse, 405 method, 429 rate limit,
500 missing key, 502 unreachable). -/
def FixedStatus (s : Nat) : Prop :=
  s = 200 ∨ s = 204 ∨ s = 400 ∨ s = 405 ∨ s = 429 ∨ s = 500 ∨ s = 502


/-! ## Rate-limiter theorems (claims C1, C2, C3, C9, C10) -/

/-- The ceiling in seconds is nonnegative on nonnegative input. -/
theorem ceilSec_nonneg (a : Int) (h : 0 ≤ a) : 0 ≤ ceilSec a := by
  unfold ceilSec; omega

/-- The ceiling in seconds is positive on positive input. -/
theorem ceilSec_pos (a : Int) (h : 0 < a) : 0 < ceilSec a := by
  unfold ceilSec; omega

/-- C1 (counterexample): at the exact end of the window — `now` equals
`windowStart + RATE_WINDOW * 1000`, so `now - windowStart` does not exceed the
window duration — a full record is still denied, but `resetIn` is
`Math.ceil(0 / 1000) = 0`, not strictly positive as the claim states. -/
theorem checkRateLimit_C1_counterexample :
    mFull "9.9.9.9" = some ⟨0, 20⟩ ∧
    cfgEdge.limit ≤ 20 ∧
    (3600000 : Int) - 0 ≤ cfgEdge.window * 1000 ∧
    (checkRateLimit cfgEdge "9.9.9.9" 3600000 mFull).1.allowed = false ∧
    (checkRateLimit cfgEdge "9.9.9.9" 3600000 mFull).1.resetIn = some 0 := by
  refine ⟨by decide, by decide, by decide, by decide, by decide⟩

/-- C1 (amended): when the record for the key has `count ≥ limit` and the
window has not expired (`now - windowStart ≤ window * 1000`), the check denies
with `resetIn = ⌈(windowStart + window*1000 - now) / 1000⌉` seconds; this
`resetIn` is nonnegative, and strictly positive whenever `now - windowStart`
is strictly below the window duration (so the (limit+1)-th call strictly
inside the window is denied with positive `resetIn`; at the exact boundary
`now - windowStart = window * 1000` it is denied with `resetIn = 0`). -/
theorem checkRateLimit_denies_over_limit (cfg : RLConfig) (key : String)
    (now : Int) (m : RateMap) (r : RateRecord) (hm : m key = some r)
    (hcount : cfg.limit ≤ r.count)
    (hwin : now - r.windowStart ≤ cfg.window * 1000) :
    (checkRateLimit cfg key now m).1.allowed = false ∧
    (checkRateLimit cfg key now m).1.resetIn =
      some (ceilSec (r.windowStart + cfg.window * 1000 - now)) ∧
    (∀ v, (checkRateLimit cfg key now m).1.resetIn = some v → 0 ≤ v) ∧
    (now - r.windowStart < cfg.window * 1000 →
      ∀ v, (checkRateLimit cfg key now m).1.resetIn = some v → 0 < v) := by
  have hnotgt : ¬ (now - r.windowStart > cfg.window * 1000) := not_lt.mpr hwin
  have hge : r.count ≥ cfg.limit := hcount
  simp only [checkRateLimit, hm, if_neg hnotgt, if_pos hge]
  refine ⟨by trivial, by trivial, ?_, ?_⟩
  · intro v hv
    simp only [Option.some.injEq] at hv
    subst hv
    exact ceilSec_nonneg _ (by omega)
  · intro hlt v hv
    simp only [Option.some.injEq] at hv
    subst hv
    exact ceilSec_pos _ (by omega)

/-- C1 (witness): a full record one millisecond before the window ends is
denied with `resetIn = some 1 > 0`. -/
theorem checkRateLimit_denies_over_limit_spot :
    mFull "9.9.9.9" = some ⟨0, 20⟩ ∧
    cfgEdge.limit ≤ 20 ∧ (3599999 : Int) - 0 ≤ cfgEdge.window * 1000 ∧
    (checkRateLimit cfgEdge "9.9.9.9" 3599999 mFull).1.allowed = false := by
  refine ⟨by decide, by decide, by decide, ?_⟩
  exact (checkRateLimit_denies_over_limit cfgEdge "9.9.9.9" 3599999 mFull
    ⟨0, 20⟩ (by decide) (by decide) (by decide)).1

/-- C2: within an active window and strictly under the limit, the check
increments the stored count, leaves other keys alone, and returns
`allowed = true` with `remaining = limit - count` (post-increment count);
a further allowed call in the same window returns a `remaining` exactly one
lower. -/
theorem checkRateLimit_under_limit (cfg : RLConfig) (key : String) (now : Int)
    (m : RateMap) (r : RateRecord) (hm : m key = some r)
    (hwin : now - r.windowStart ≤ cfg.window * 1000)
    (hcount : r.count < cfg.limit) :
    (checkRateLimit cfg key now m).1.allowed = true ∧
    (checkRateLimit cfg key now m).1.remaining = cfg.limit - (r.count + 1) ∧
    (checkRateLimit cfg key now m).2 key = some ⟨r.windowStart, r.count + 1⟩ ∧
    (∀ k, k ≠ key → (checkRateLimit cfg key now m).2 k = m k) ∧
    (∀ now', now' - r.windowStart ≤ cfg.window * 1000 → r.count + 1 < cfg.limit →
      (checkRateLimit cfg key now' ((checkRateLimit cfg key now m).2)).1.remaining + 1 =
        (checkRateLimit cfg key now m).1.remaining) := by
  have hnotgt : ¬ (now - r.windowStart > cfg.window * 1000) := not_lt.mpr hwin
  have hnotge : ¬ (r.count ≥ cfg.limit) := not_le.mpr hcount
  simp only [checkRateLimit, hm, if_neg hnotgt, if_neg hnotge]
  refine ⟨by trivial, by trivial, by simp [rlSet], ?_, ?_⟩
  · intro k hk
    simp [rlSet, hk]
  · intro now' hwin' hcount'
    have hm' : rlSet m key ⟨r.windowStart, r.count + 1⟩ key =
        some ⟨r.windowStart, r.count + 1⟩ := by simp [rlSet]
    have hnotgt' : ¬ (now' - r.windowStart > cfg.window * 1000) := not_lt.mpr hwin'
    have hnotge' : ¬ (r.count + 1 ≥ cfg.limit) := not_le.mpr hcount'
    simp only [checkRateLimit, hm', if_neg hnotgt', if_neg hnotge']
    omega

/-- C2 (witness): with a count of 3 out of 20 in an active window, the call is
allowed and `remaining = 16`. -/
theorem checkRateLimit_under_limit_spot :
    (rlSet rlEmpty "a" ⟨0, 3⟩) "a" = some ⟨0, 3⟩ ∧
    (7 : Int) - 0 ≤ cfgEdge.window * 1000 ∧ 3 < cfgEdge.limit ∧
    (checkRateLimit cfgEdge "a" 7 (rlSet rlEmpty "a" ⟨0, 3⟩)).1.allowed = true ∧
    (checkRateLimit cfgEdge "a" 7 (rlSet rlEmpty "a" ⟨0, 3⟩)).1.remaining =
      cfgEdge.limit - 4 := by
  refine ⟨by decide, by decide, by decide, ?_, ?_⟩
  · exact (checkRateLimit_under_limit cfgEdge "a" 7 (rlSet rlEmpty "a" ⟨0, 3⟩)
      ⟨0, 3⟩ (by decide) (by decide) (by decide)).1
  · exact (checkRateLimit_under_limit cfgEdge "a" 7 (rlSet rlEmpty "a" ⟨0, 3⟩)
      ⟨0, 3⟩ (by decide) (by decide) (by decide)).2.1

/-- C3: with no record for the key, or a record whose window-start lies more
than the window duration in the past, the check resets the record to
`{windowStart := now, count := 1}` and returns `allowed = true` with
`remaining = limit - 1` (so after the window elapses the key's next call is
allowed again). -/
theorem checkRateLimit_fresh_window (cfg : RLConfig) (key : String) (now : Int)
    (m : RateMap)
    (h : m key = none ∨
      ∃ r, m key = some r ∧ now - r.windowStart > cfg.window * 1000) :
    (checkRateLimit cfg key now m).1 = ⟨true, cfg.limit - 1, none⟩ ∧
    (checkRateLimit cfg key now m).2 key = some ⟨now, 1⟩ := by
  rcases h with h | ⟨r, hr, hgt⟩
  · simp [checkRateLimit, h, rlSet]
  · simp [checkRateLimit, hr, if_pos hgt, rlSet]

/-- C3 (witness): a key whose window started at 0, checked again at
`RATE_WINDOW * 1000 + 1` ms (just past the window), is allowed with a reset
record even though its count was at the limit. -/
theorem checkRateLimit_fresh_window_spot :
    ((3600001 : Int) - 0 > cfgEdge.window * 1000) ∧
    (checkRateLimit cfgEdge "9.9.9.9" 3600001 mFull).1 =
      ⟨true, cfgEdge.limit - 1, none⟩ ∧
    (checkRateLimit cfgEdge "9.9.9.9" 3600001 mFull).2 "9.9.9.9" =
      some ⟨3600001, 1⟩ := by
  refine ⟨by decide, ?_, ?_⟩
  · exact (checkRateLimit_fresh_window cfgEdge "9.9.9.9" 3600001 mFull
      (Or.inr ⟨⟨0, 20⟩, by decide, by decide⟩)).1
  · exact (checkRateLimit_fresh_window cfgEdge "9.9.9.9" 3600001 mFull
      (Or.inr ⟨⟨0, 20⟩, by decide, by decide⟩)).2

/-- One `checkRateLimit` call preserves the count invariant
`1 ≤ count ≤ limit`, provided the limit is at least 1. -/
theorem checkRateLimit_preserves_inv (cfg : RLConfig) (hl : 1 ≤ cfg.limit)
    (key : String) (now : Int) (m : RateMap) (hinv : RLInv cfg m) :
    RLInv cfg (checkRateLimit cfg key now m).2 := by
  intro k r hk
  rcases hmk : m key with _ | rec
  · simp only [checkRateLimit, hmk, rlSet] at hk
    by_cases hke : k = key
    · rw [if_pos hke] at hk
      cases hk
      exact ⟨le_refl 1, hl⟩
    · rw [if_neg hke] at hk
      exact hinv k r hk
  · by_cases h1 : now - rec.windowStart > cfg.window * 1000
    · simp only [checkRateLimit, hmk, if_pos h1, rlSet] at hk
      by_cases hke : k = key
      · rw [if_pos hke] at hk
        cases hk
        exact ⟨le_refl 1, hl⟩
      · rw [if_neg hke] at hk
        exact hinv k r hk
    · by_cases h2 : rec.count ≥ cfg.limit
      · simp only [checkRateLimit, hmk, if_neg h1, if_pos h2] at hk
        exact hinv k r hk
      · simp only [checkRateLimit, hmk, if_neg h1, if_neg h2, rlSet] at hk
        by_cases hke : k = key
        · rw [if_pos hke] at hk
          cases hk
          have h3 := (hinv key rec hmk).1
          exact show 1 ≤ rec.count + 1 ∧ rec.count + 1 ≤ cfg.limit by omega
        · rw [if_neg hke] at hk
          exact hinv k r hk

/-- `runCalls` preserves the count invariant. -/
theorem runCalls_preserves_inv (cfg : RLConfig) (hl : 1 ≤ cfg.limit)
    (calls : List (String × Int)) :
    ∀ m, RLInv cfg m → RLInv cfg (runCalls cfg calls m) := by
  induction calls with
  | nil => intro m hm; exact hm
  | cons c cs ih =>
    intro m hm
    have hstep := checkRateLimit_preserves_inv cfg hl c.1 c.2 m hm
    simpa [runCalls, List.foldl] using ih _ hstep

/-- C9: in every state of the rate-limit map reachable from cold start by a
sequence of `checkRateLimit` calls, every stored record satisfies
`1 ≤ count ≤ limit` (records are created at count 1, incremented only while
strictly below the limit, and denials do not increment). -/
theorem rateLimitMap_count_invariant (cfg : RLConfig) (hl : 1 ≤ cfg.limit)
    (calls : List (String × Int)) (k : String) (r : RateRecord)
    (hr : runCalls cfg calls rlEmpty k = some r) :
    1 ≤ r.count ∧ r.count ≤ cfg.limit := by
  have h0 : RLInv cfg rlEmpty := by intro k r h; cases h
  exact runCalls_preserves_inv cfg hl calls rlEmpty h0 k r hr

/-- C9 (witness): after 21 calls from the same key at times 0..20 ms under the
edge configuration, the stored record has count 20 = limit (the 21st call was
denied and did not increment). -/
theorem rateLimitMap_count_invariant_spot :
    1 ≤ cfgEdge.limit ∧
    runCalls cfgEdge (((List.range 21).map (fun i => ("a", (i : Int))))) rlEmpty "a" =
      some ⟨0, 20⟩ ∧
    1 ≤ (20 : Nat) ∧ (20 : Nat) ≤ cfgEdge.limit := by
  refine ⟨by decide, by decide, ?_⟩
  exact rateLimitMap_count_invariant cfgEdge (by decide)
    (((List.range 21).map (fun i => ("a", (i : Int))))) "a" ⟨0, 20⟩ (by decide)

/-- C10: a denied check leaves the rate-limit map exactly as it was — no
record is created, the denied key's record keeps its count and window-start,
and other keys are untouched. -/
theorem checkRateLimit_denied_leaves_map (cfg : RLConfig) (key : String)
    (now : Int) (m : RateMap)
    (h : (checkRateLimit cfg key now m).1.allowed = false) :
    (checkRateLimit cfg key now m).2 = m := by
  rcases hmk : m key with _ | rec
  · simp only [checkRateLimit, hmk] at h
    exact Bool.noConfusion h
  · by_cases h1 : now - rec.windowStart > cfg.window * 1000
    · simp only [checkRateLimit, hmk, if_pos h1] at h
      exact Bool.noConfusion h
    · by_cases h2 : rec.count ≥ cfg.limit
      · simp only [checkRateLimit, hmk, if_neg h1, if_pos h2]
      · simp only [checkRateLimit, hmk, if_neg h1, if_neg h2] at h
        exact Bool.noConfusion h

/-- C10 (witness): the denied call on the full record at time 100 returns the
very same map. -/
theorem checkRateLimit_denied_leaves_map_spot :
    (checkRateLimit cfgEdge "9.9.9.9" 100 mFull).1.allowed = false ∧
    (checkRateLimit cfgEdge "9.9.9.9" 100 mFull).2 = mFull := by
  refine ⟨by decide, ?_⟩
  exact checkRateLimit_denied_leaves_map cfgEdge "9.9.9.9" 100 mFull (by decide)

/-! ## Handler theorems (claims C4, C5, C6, C7, C8) -/

/-- An allowed, validated POST with a configured key always issues exactly one
upstream call, whose body is `buildUpstreamBody`, whatever the upstream
outcome. -/
theorem handler_issues_call (cfg : RLConfig) (apiKey : String)
    (up : UpstreamOutcome) (now : Int) (m : RateMap) (req : Req) (b : ChatBody)
    (msgs : List ChatMsg) (hmethod : req.method = "POST")
    (hallow : (checkRateLimit cfg (getRateLimitKey req) now m).1.allowed = true)
    (hbody : req.body = some b) (hmsgs : b.messages = .arr msgs) :
    (handler cfg (some apiKey) up now m req).upstreamCall =
      some (buildUpstreamBody msgs b) := by
  rcases up with e | ⟨status, upb⟩
  · simp [handler, hmethod, hbody, hmsgs, hallow]
  · by_cases hok : resOk status
    · rcases upb with _ | ⟨emsg, choices⟩
      · simp [handler, hmethod, hbody, hmsgs, hallow, hok]
      · rcases choices with _ | chs
        · simp [handler, hmethod, hbody, hmsgs, hallow, hok]
        · rcases chs with _ | ⟨c, cs⟩
          · simp [handler, hmethod, hbody, hmsgs, hallow, hok]
          · rcases hcm : c.message with _ | mg <;>
              simp [handler, hmethod, hbody, hmsgs, hallow, hok, hcm]
    · simp [handler, hmethod, hbody, hmsgs, hallow, hok]

/-- C4 (counterexample): on a request whose body carries the present-but-falsy
fields `model = ""`, `max_tokens = 0`, `temperature = 0`, the upstream call
uses the defaults for `model` and `max_tokens` (`||` is falsy-coalescing) —
not the request-supplied values as the claim predicts; only `temperature`
keeps its present zero. -/
theorem handler_C4_counterexample :
    bFalsy.model = some "" ∧ bFalsy.max_tokens = some 0 ∧
    bFalsy.temperature = some 0 ∧
    (handler cfgEdge (some "sk") (.transportError "boom") 0 rlEmpty
        reqFalsy).upstreamCall =
      some ⟨"gpt-4o-mini", [⟨"user", "hi"⟩], 1500, 0⟩ ∧
    (handler cfgEdge (some "sk") (.transportError "boom") 0 rlEmpty
        reqFalsy).upstreamCall ≠
      some ⟨"", [⟨"user", "hi"⟩], 0, 0⟩ := by
  refine ⟨by decide, by decide, by decide, by decide, by decide⟩

/-- C4 (amended): for every allowed, validated request, the single upstream
call's body has: `messages` passed through unchanged; `model` equal to the
request-supplied model when present and non-empty, else the default;
`max_tokens` equal to the request-supplied value when present and non-zero,
else the default (a present zero *does* trigger the default — falsy
coalescing); and `temperature` equal to the request-supplied value whenever
present (zero included), else the default. -/
theorem handler_upstream_body_fields (cfg : RLConfig) (apiKey : String)
    (up : UpstreamOutcome) (now : Int) (m : RateMap) (req : Req) (b : ChatBody)
    (msgs : List ChatMsg) (hmethod : req.method = "POST")
    (hallow : (checkRateLimit cfg (getRateLimitKey req) now m).1.allowed = true)
    (hbody : req.body = some b) (hmsgs : b.messages = .arr msgs) :
    ∃ ub, (handler cfg (some apiKey) up now m req).upstreamCall = some ub ∧
      ub.messages = msgs ∧
      (∀ s, b.model = some s → s ≠ "" → ub.model = s) ∧
      ((b.model = none ∨ b.model = some "") → ub.model = "gpt-4o-mini") ∧
      (∀ t, b.max_tokens = some t → t ≠ 0 → ub.max_tokens = t) ∧
      ((b.max_tokens = none ∨ b.max_tokens = some 0) → ub.max_tokens = 1500) ∧
      (∀ q, b.temperature = some q → ub.temperature = q) ∧
      (b.temperature = none → ub.temperature = 85 / 100) := by
  refine ⟨buildUpstreamBody msgs b,
    handler_issues_call cfg apiKey up now m req b msgs hmethod hallow hbody hmsgs,
    rfl, ?_, ?_, ?_, ?_, ?_, ?_⟩
  · intro s hs hne
    simp [buildUpstreamBody, hs, hne]
  · rintro (h | h) <;> simp [buildUpstreamBody, h]
  · intro t ht hne
    simp [buildUpstreamBody, ht, hne]
  · rintro (h | h) <;> simp [buildUpstreamBody, h]
  · intro q hq
    simp [buildUpstreamBody, hq]
  · intro h
    simp [buildUpstreamBody, h]

/-- C4 (witness): a request supplying `model = "gpt-4o"`, `max_tokens = 5`,
`temperature = 1/2` is forwarded with exactly those values. -/
theorem handler_upstream_body_fields_spot :
    reqRich.method = "POST" ∧
    (checkRateLimit cfgEdge (getRateLimitKey reqRich) 0 rlEmpty).1.allowed =
      true ∧
    reqRich.body = some bRich ∧ bRich.messages = .arr [⟨"user", "hi"⟩] ∧
    ∃ ub,
      (handler cfgEdge (some "sk") (.transportError "boom") 0 rlEmpty
          reqRich).upstreamCall = some ub ∧
      ub.messages = [⟨"user", "hi"⟩] ∧
      (∀ s, bRich.model = some s → s ≠ "" → ub.model = s) ∧
      ((bRich.model = none ∨ bRich.model = some "") →
        ub.model = "gpt-4o-mini") ∧
      (∀ t, bRich.max_tokens = some t → t ≠ 0 → ub.max_tokens = t) ∧
      ((bRich.max_tokens = none ∨ bRich.max_tokens = some 0) →
        ub.max_tokens = 1500) ∧
      (∀ q, bRich.temperature = some q → ub.temperature = q) ∧
      (bRich.temperature = none → ub.temperature = 85 / 100) := by
  refine ⟨rfl, by decide, rfl, rfl, ?_⟩
  exact handler_upstream_body_fields cfgEdge "sk" (.transportError "boom") 0
    rlEmpty reqRich bRich [⟨"user", "hi"⟩] rfl (by decide) rfl rfl

/-- C5: when the upstream `fetch` rejects (with any transport error `e`), an
allowed, validated request gets exactly status 502 with body
`{error: "Failed to reach AI service"}` — the conclusion is a fixed constant,
so the transport error `e` never appears in the response. -/
theorem handler_transport_failure (cfg : RLConfig) (apiKey : String)
    (e : String) (now : Int) (m : RateMap) (req : Req) (b : ChatBody)
    (msgs : List ChatMsg) (hmethod : req.method = "POST")
    (hallow : (checkRateLimit cfg (getRateLimitKey req) now m).1.allowed = true)
    (hbody : req.body = some b) (hmsgs : b.messages = .arr msgs) :
    (handler cfg (some apiKey) (.transportError e) now m req).resp =
      ⟨502, .errBody "Failed to reach AI service" none⟩ := by
  simp [handler, hmethod, hbody, hmsgs, hallow]

/-- C5 (witness): a concrete failing transport with error text
`"ECONNRESET"` yields the fixed 502 body. -/
theorem handler_transport_failure_spot :
    reqPlain.method = "POST" ∧
    (checkRateLimit cfgEdge (getRateLimitKey reqPlain) 0 rlEmpty).1.allowed =
      true ∧
    (handler cfgEdge (some "sk") (.transportError "ECONNRESET") 0 rlEmpty
        reqPlain).resp = ⟨502, .errBody "Failed to reach AI service" none⟩ := by
  refine ⟨rfl, by decide, ?_⟩
  exact handler_transport_failure cfgEdge "sk" "ECONNRESET" 0 rlEmpty reqPlain
    bPlain [⟨"user", "hi"⟩] rfl (by decide) rfl rfl

/-- C6 (counterexample): the rate-limit check runs before payload validation,
so a POST whose body has a non-array `messages` is answered 429, not 400, when
its client key is over quota in an active window — the claim's "for every POST
request" fails in such states. -/
theorem handler_C6_counterexample :
    reqBadMsgs.method = "POST" ∧
    reqBadMsgs.body = some ⟨.notArray, none, none, none⟩ ∧
    (handler cfgEdge (some "sk") (.transportError "x") 100 mFull
        reqBadMsgs).resp.status = 429 ∧
    (handler cfgEdge (some "sk") (.transportError "x") 100 mFull
        reqBadMsgs).resp.status ≠ 400 := by
  refine ⟨rfl, rfl, by decide, by decide⟩

/-- C6 (amended): for every POST request that passes the rate-limit check and
whose body parses, if the `messages` field is missing or not an array the
handler answers 400 with `{error: "messages array required"}`, regardless of
the body's other fields, of the configured key, and of the upstream. -/
theorem handler_messages_validation (cfg : RLConfig) (apiKey : Option String)
    (up : UpstreamOutcome) (now : Int) (m : RateMap) (req : Req) (b : ChatBody)
    (hmethod : req.method = "POST")
    (hallow : (checkRateLimit cfg (getRateLimitKey req) now m).1.allowed = true)
    (hbody : req.body = some b)
    (hmsg : b.messages = .missing ∨ b.messages = .notArray) :
    (handler cfg apiKey up now m req).resp =
      ⟨400, .errBody "messages array required" none⟩ := by
  rcases hmsg with h | h <;> simp [handler, hmethod, hbody, h, hallow]

/-- C6 (witness): the same bad-`messages` request under an empty map is
answered 400 with the validation error. -/
theorem handler_messages_validation_spot :
    reqBadMsgs.method = "POST" ∧
    (checkRateLimit cfgEdge (getRateLimitKey reqBadMsgs) 100
        rlEmpty).1.allowed = true ∧
    (handler cfgEdge (some "sk") (.transportError "x") 100 rlEmpty
        reqBadMsgs).resp = ⟨400, .errBody "messages array required" none⟩ := by
  refine ⟨rfl, by decide, ?_⟩
  exact handler_messages_validation cfgEdge (some "sk") (.transportError "x")
    100 rlEmpty reqBadMsgs ⟨.notArray, none, none, none⟩ rfl (by decide) rfl
    (Or.inr rfl)

/-- C7: a completed upstream reply with a non-success status is passed through
as the response status, with the message extracted from the upstream body when
one is there (non-empty `error.message`) and the synthesized
`"OpenAI error: <status>"` otherwise; and every handler response status is
either one of the fixed codes (200, 204, 400, 405, 429, 500, 502) or the
pass-through status of a non-ok upstream reply. -/
theorem handler_upstream_error (cfg : RLConfig) (apiKey : String)
    (status : Nat) (upb : UpBody) (now : Int) (m : RateMap) (req : Req)
    (b : ChatBody) (msgs : List ChatMsg) (hmethod : req.method = "POST")
    (hallow : (checkRateLimit cfg (getRateLimitKey req) now m).1.allowed = true)
    (hbody : req.body = some b) (hmsgs : b.messages = .arr msgs)
    (hnok : resOk status = false) :
    ((handler cfg (some apiKey) (.reply status upb) now m req).resp.status =
        status ∧
      (∀ s, upErrMsg upb = some s → s ≠ "" →
        (handler cfg (some apiKey) (.reply status upb) now m req).resp.body =
          .errBody s none) ∧
      ((upErrMsg upb = none ∨ upErrMsg upb = some "") →
        (handler cfg (some apiKey) (.reply status upb) now m req).resp.body =
          .errBody ("OpenAI error: " ++ toString status) none)) ∧
    (∀ (ak : Option String) (up2 : UpstreamOutcome) (now2 : Int) (m2 : RateMap)
        (req2 : Req),
      FixedStatus (handler cfg ak up2 now2 m2 req2).resp.status ∨
      ∃ st ub2, up2 = .reply st ub2 ∧ resOk st = false ∧
        (handler cfg ak up2 now2 m2 req2).resp.status = st) := by
  constructor
  · refine ⟨?_, ?_, ?_⟩
    · simp [handler, hmethod, hbody, hmsgs, hallow, hnok]
    · intro s hs hsne
      cases upb with
      | unparseable => simp [upErrMsg] at hs
      | parsed e chs =>
        simp only [upErrMsg] at hs
        subst hs
        simp [handler, hmethod, hbody, hmsgs, hallow, hnok, hsne]
    · rintro (h | h)
      · cases upb with
        | unparseable =>
          simp [handler, hmethod, hbody, hmsgs, hallow, hnok]
        | parsed e chs =>
          simp only [upErrMsg] at h
          subst h
          simp [handler, hmethod, hbody, hmsgs, hallow, hnok]
      · cases upb with
        | unparseable => simp [upErrMsg] at h
        | parsed e chs =>
          simp only [upErrMsg] at h
          subst h
          simp [handler, hmethod, hbody, hmsgs, hallow, hnok]
  · intro ak up2 now2 m2 req2
    by_cases h1 : req2.method = "OPTIONS"
    · exact Or.inl (by simp [handler, h1, FixedStatus])
    · by_cases h2 : req2.method = "POST"
      · by_cases h3 :
          (checkRateLimit cfg (getRateLimitKey req2) now2 m2).1.allowed = false
        · exact Or.inl (by simp [handler, h1, h2, h3, FixedStatus])
        · rcases hb : req2.body with _ | b2
          · exact Or.inl (by simp [handler, h1, h2, h3, hb, FixedStatus])
          · rcases hmsg2 : b2.messages with _ | _ | msgs2
            · exact Or.inl (by simp [handler, h1, h2, h3, hb, hmsg2, FixedStatus])
            · exact Or.inl (by simp [handler, h1, h2, h3, hb, hmsg2, FixedStatus])
            · rcases ak with _ | k2
              · exact Or.inl (by simp [handler, h1, h2, h3, hb, hmsg2, FixedStatus])
              · rcases up2 with e2 | ⟨st2, ub2⟩
                · exact Or.inl
                    (by simp [handler, h1, h2, h3, hb, hmsg2, FixedStatus])
                · by_cases hok2 : resOk st2
                  · rcases ub2 with _ | ⟨em2, ch2⟩
                    · exact Or.inl (by
                        simp [handler, h1, h2, h3, hb, hmsg2, hok2, FixedStatus])
                    · rcases ch2 with _ | ch2
                      · exact Or.inl (by
                          simp [handler, h1, h2, h3, hb, hmsg2, hok2, FixedStatus])
                      · rcases ch2 with _ | ⟨c2, cs2⟩
                        · exact Or.inl (by
                            simp [handler, h1, h2, h3, hb, hmsg2, hok2,
                              FixedStatus])
                        · rcases hcm2 : c2.message with _ | mg2
                          · exact Or.inl (by
                              simp [handler, h1, h2, h3, hb, hmsg2, hok2, hcm2,
                                FixedStatus])
                          · exact Or.inl (by
                              simp [handler, h1, h2, h3, hb, hmsg2, hok2, hcm2,
                                FixedStatus])
                  · refine Or.inr ⟨st2, ub2, rfl, by simpa using hok2, ?_⟩
                    simp [handler, h1, h2, h3, hb, hmsg2, hok2]
      · exact Or.inl (by simp [handler, h1, h2, FixedStatus])

/-- C7 (witness): an upstream 418 reply whose body carries
`error.message = "teapot"` is passed through as a 418 response with
`{error: "teapot"}`. -/
theorem handler_upstream_error_spot :
    reqPlain.method = "POST" ∧
    (checkRateLimit cfgEdge (getRateLimitKey reqPlain) 0 rlEmpty).1.allowed =
      true ∧ resOk 418 = false ∧
    (handler cfgEdge (some "sk") (.reply 418 (.parsed (some "teapot") none)) 0
        rlEmpty reqPlain).resp.status = 418 ∧
    (handler cfgEdge (some "sk") (.reply 418 (.parsed (some "teapot") none)) 0
        rlEmpty reqPlain).resp.body = .errBody "teapot" none := by
  refine ⟨rfl, by decide, by decide, ?_, ?_⟩
  · exact (handler_upstream_error cfgEdge "sk" 418 (.parsed (some "teapot") none)
      0 rlEmpty reqPlain bPlain [⟨"user", "hi"⟩] rfl (by decide) rfl rfl
      (by decide)).1.1
  · exact (handler_upstream_error cfgEdge "sk" 418 (.parsed (some "teapot") none)
      0 rlEmpty reqPlain bPlain [⟨"user", "hi"⟩] rfl (by decide) rfl rfl
      (by decide)).1.2.1 "teapot" rfl (by decide)

/-- C8: an allowed, validated request whose upstream reply is ok and parses to
a body whose first choice is `{message: {content}}` is answered 200 with that
content and the `remaining` value the rate limiter computed for this call. -/
theorem handler_success_content (cfg : RLConfig) (apiKey : String)
    (status : Nat) (em : Option String) (content : String)
    (rest : List UpChoice) (now : Int) (m : RateMap) (req : Req) (b : ChatBody)
    (msgs : List ChatMsg) (hmethod : req.method = "POST")
    (hallow : (checkRateLimit cfg (getRateLimitKey req) now m).1.allowed = true)
    (hbody : req.body = some b) (hmsgs : b.messages = .arr msgs)
    (hok : resOk status = true) :
    (handler cfg (some apiKey)
        (.reply status (.parsed em (some (⟨some ⟨some content⟩⟩ :: rest))))
        now m req).resp =
      ⟨200, .okBody (some content)
        (checkRateLimit cfg (getRateLimitKey req) now m).1.remaining⟩ := by
  simp [handler, hmethod, hbody, hmsgs, hallow, hok]

/-- C8 (witness): an ok upstream reply with
`choices: [{message: {content: "hello"}}]` yields
`{content: "hello", remaining: 19}` with status 200 on a fresh key. -/
theorem handler_success_content_spot :
    reqPlain.method = "POST" ∧
    (checkRateLimit cfgEdge (getRateLimitKey reqPlain) 0 rlEmpty).1.allowed =
      true ∧ resOk 200 = true ∧
    (checkRateLimit cfgEdge (getRateLimitKey reqPlain) 0 rlEmpty).1.remaining =
      19 ∧
    (handler cfgEdge (some "sk")
        (.reply 200 (.parsed none (some [⟨some ⟨some "hello"⟩⟩]))) 0 rlEmpty
        reqPlain).resp =
      ⟨200, .okBody (some "hello")
        (checkRateLimit cfgEdge (getRateLimitKey reqPlain) 0
          rlEmpty).1.remaining⟩ := by
  refine ⟨rfl, by decide, by decide, by decide, ?_⟩
  exact handler_success_content cfgEdge "sk" 200 none "hello" [] 0 rlEmpty
    reqPlain bPlain [⟨"user", "hi"⟩] rfl (by decide) rfl rfl (by decide)
